import Mathlib

/-!
Verification development for the gofile upload relay (`app.py`).

The Python program is shallowly embedded: JSON values are an inductive
type, Python dictionary/list access is modelled in an `Except` monad
(raising = `Except.error`, carrying the exception text), the two outbound
HTTP calls (server discovery GET, upload POST) are inputs of type
`HttpOutcome`, and each request handler is a total Lean function from the
request data and the provider environment to its response together with
the list of outbound network calls it performed.

JSON numbers are modelled as integers (no claim touches non-integral
numbers).  Local filesystem operations (temp-file save/remove) are assumed
to succeed: their failure path is the generic exception handler of each
route, which no claim exercises.
-/

/-- JSON values, as returned by `response.json()` and built by `jsonify`. -/
inductive Json where
  | null : Json
  | bool (b : Bool) : Json
  | num (n : Int) : Json
  | str (s : String) : Json
  | arr (xs : List Json) : Json
  | obj (fields : List (String × Json)) : Json
deriving Repr

/-- Python `d[k]` on a JSON value: `KeyError` when the key is absent,
`TypeError` when the value is not a dict.  `Except.error` carries the
exception text (its precise wording is irrelevant to every claim). -/
def Json.item (j : Json) (k : String) : Except String Json :=
  match j with
  | .obj fields =>
    match fields.lookup k with
    | some v => Except.ok v
    | none => Except.error ("KeyError: " ++ k)
  | _ => Except.error "TypeError: value is not subscriptable by string"

/-- Python `d.get(k, default)`: total on dicts, `AttributeError` otherwise. -/
def Json.getD (j : Json) (k : String) (d : Json) : Except String Json :=
  match j with
  | .obj fields => Except.ok ((fields.lookup k).getD d)
  | _ => Except.error "AttributeError: value has no attribute get"

/-- Python `xs[i]` for an integer index: lists and strings are indexable
(a string yields a one-character string), anything else raises. -/
def Json.index (j : Json) (i : Nat) : Except String Json :=
  match j with
  | .arr xs =>
    match xs.get? i with
    | some v => Except.ok v
    | none => Except.error "IndexError: list index out of range"
  | .str s =>
    match s.toList.get? i with
    | some c => Except.ok (.str (String.mk [c]))
    | none => Except.error "IndexError: string index out of range"
  | _ => Except.error "TypeError: value is not subscriptable by integer"

/-- Python truthiness of a JSON value (`if servers:`). -/
def Json.truthy : Json → Bool
  | .null => false
  | .bool b => b
  | .num n => n != 0
  | .str s => s ≠ ""
  | .arr xs => !xs.isEmpty
  | .obj fields => !fields.isEmpty

/-- Python `v == 'lit'` for a JSON value `v`: true exactly when `v` is that
string (comparison with a non-string is `False`, never an error). -/
def Json.isStr (j : Json) (s : String) : Bool :=
  match j with
  | .str t => t = s
  | _ => false

mutual

/-- Python `repr` of a JSON value (string escaping is not modelled: no
claim exercises `str()` of a container or of a string with quotes). -/
def pyRepr : Json → String
  | .null => "None"
  | .bool true => "True"
  | .bool false => "False"
  | .num n => toString n
  | .str s => "'" ++ s ++ "'"
  | .arr xs => "[" ++ String.intercalate ", " (pyReprList xs) ++ "]"
  | .obj fields => "\x7b" ++ String.intercalate ", " (pyReprFields fields) ++ "\x7d"

def pyReprList : List Json → List String
  | [] => []
  | j :: rest => pyRepr j :: pyReprList rest

def pyReprFields : List (String × Json) → List String
  | [] => []
  | (k, v) :: rest => ("'" ++ k ++ "': " ++ pyRepr v) :: pyReprFields rest

end

/-- Python `str()` of a JSON value, as used by f-string interpolation. -/
def pyStr : Json → String
  | .str s => s
  | j => pyRepr j

/-- The outcome of one `requests.get`/`requests.post` call: either a
response object, or the call raised (network/transport error) with the
given exception text.  `jsonBody` is what `.json()` does on the response:
`Except.error` means it raises (malformed body). -/
inductive HttpOutcome where
  | ok (status_code : Nat) (jsonBody : Except String Json) : HttpOutcome
  | exn (msg : String) : HttpOutcome
deriving Repr

/-- The provider environment of one request: the response of the server
discovery GET and the response of the upload POST. -/
structure ProviderEnv where
  discovery : HttpOutcome
  upload : HttpOutcome

/-- An outbound HTTP call made while handling a request. -/
inductive NetCall where
  | getServers : NetCall
  | postUpload (url : String) : NetCall
deriving Repr, DecidableEq

/-- `ALLOWED_EXTENSIONS` from `app.py` (a Python set; modelled as the list
in source order — set iteration order is not observable to any claim
except through the flash message, where the model fixes this order). -/
def ALLOWED_EXTENSIONS : List String :=
  ["txt", "pdf", "png", "jpg", "jpeg", "gif", "doc", "docx",
   "xls", "xlsx", "zip", "rar", "7z", "mp3", "mp4", "avi"]

/-- `filename.rsplit('.', 1)[1]`: the part after the last dot. -/
def extOf (s : String) : String :=
  String.mk ((s.toList.reverse.takeWhile (fun c => c ≠ '.')).reverse)

/-- Python `str.lower()`, character by character (the allow-list and every
input a claim exercises is ASCII). -/
def lowerStr (s : String) : String := String.mk (s.toList.map Char.toLower)

/-- `allowed_file` from `app.py`:
`'.' in filename and filename.rsplit('.', 1)[1].lower() in ALLOWED_EXTENSIONS`. -/
def allowed_file (filename : String) : Bool :=
  '.' ∈ filename.toList && lowerStr (extOf filename) ∈ ALLOWED_EXTENSIONS

/-- The body of the `try` of `get_gofile_server`, in the exception monad:
`Except.error` is a raised exception (caught by the `except` clause),
`Except.ok none` is falling through one of the `if` guards without
returning, `Except.ok (some v)` is `return data['data']['servers'][0]['name']`. -/
def get_gofile_serverE (disc : HttpOutcome) : Except String (Option Json) :=
  match disc with
  | .exn e => Except.error e
  | .ok status_code jsonBody =>
    if status_code = 200 then
      match jsonBody with
      | .error e => Except.error e
      | .ok data =>
        match data.item "status" with
        | .error e => Except.error e
        | .ok st =>
          if st.isStr "ok" then
            match data.item "data" with
            | .error e => Except.error e
            | .ok d =>
              match d.item "servers" with
              | .error e => Except.error e
              | .ok servers =>
                if servers.truthy then
                  match servers.index 0 with
                  | .error e => Except.error e
                  | .ok first =>
                    match first.item "name" with
                    | .error e => Except.error e
                    | .ok name => Except.ok (some name)
                else
                  Except.ok none
          else
            Except.ok none
    else
      Except.ok none

/-- `get_gofile_server` from `app.py`: the `try` body, with every raised
exception caught (and logged) and every non-returning path falling through
to `return 'store1'`. -/
def get_gofile_server (disc : HttpOutcome) : Json :=
  match get_gofile_serverE disc with
  | .ok (some name) => name
  | _ => .str "store1"

example : get_gofile_server (.exn "boom") = .str "store1" := by rfl
example : get_gofile_server (.ok 503 (.ok .null)) = .str "store1" := by rfl
example :
    get_gofile_server (.ok 200 (.ok (Json.obj [("status", .str "ok"),
      ("data", .obj [("servers", .arr [.obj [("name", .str "store3")]])])])))
      = .str "store3" := by rfl

/-- A Python-dict failure result `{'success': False, 'error': msg}`. -/
def failureJson (msg : String) : Json :=
  Json.obj [("success", .bool false), ("error", .str msg)]

/-- The body of the `try` of `upload_to_gofile`, in the exception monad.
`Except.ok (some d)` is an executed `return d`; `Except.ok none` is the
path `status_code == 200` with `data['status'] != 'ok'`, which returns
nothing inside the `try` and falls through to the function's last line;
`Except.error e` is a raised exception, caught by the `except` clause.
The discovery GET and the upload POST are both recorded as outbound
calls (the file open/read is assumed to succeed, see the file header). -/
def upload_to_gofileE (env : ProviderEnv) (filename : String) :
    Except String (Option Json) × List NetCall :=
  let server := get_gofile_server env.discovery
  let upload_url := "https://" ++ pyStr server ++ ".gofile.io/uploadFile"
  let calls := [NetCall.getServers, NetCall.postUpload upload_url]
  match env.upload with
  | .exn e => (Except.error e, calls)
  | .ok status_code jsonBody =>
    (if status_code = 200 then
      match jsonBody with
      | .error e => Except.error e
      | .ok data =>
        match data.item "status" with
        | .error e => Except.error e
        | .ok st =>
          if st.isStr "ok" then
            match data.item "data" with
            | .error e => Except.error e
            | .ok file_data =>
              match file_data.item "fileId" with
              | .error e => Except.error e
              | .ok fid =>
                let direct_link := "https://" ++ pyStr server ++ ".gofile.io/download/"
                  ++ pyStr fid ++ "/" ++ filename
                match file_data.getD "size" (Json.num 0) with
                | .error e => Except.error e
                | .ok sizeVal =>
                  match file_data.item "downloadPage" with
                  | .error e => Except.error e
                  | .ok downloadPage =>
                    Except.ok (some (Json.obj
                      [("success", .bool true),
                       ("direct_link", .str direct_link),
                       ("file_id", fid),
                       ("file_name", .str filename),
                       ("size", sizeVal),
                       ("download_page", downloadPage)]))
          else
            Except.ok none
      else
        Except.ok (some (failureJson ("Upload failed with status " ++ toString status_code))),
     calls)

/-- `upload_to_gofile` from `app.py`: the `try` body, with raised
exceptions caught into `{'success': False, 'error': str(e)}` and the
non-returning path ending at `return {'success': False, 'error':
'Unknown upload error'}`.  Also returns the list of outbound HTTP calls
the function performed. -/
def upload_to_gofile (env : ProviderEnv) (filename : String) : Json × List NetCall :=
  match upload_to_gofileE env filename with
  | (.ok (some d), calls) => (d, calls)
  | (.ok none, calls) => (failureJson "Unknown upload error", calls)
  | (.error e, calls) => (failureJson e, calls)

/-- `werkzeug.utils.secure_filename` (third-party dependency, not in this
repository): path separators become spaces, whitespace-separated words are
joined with underscores, characters outside ASCII alphanumerics, dot, dash
and underscore are removed, and leading/trailing dots and underscores are
stripped.  Unicode NFKD normalization and the Windows device-name branch
are not modelled (no claim exercises them). -/
def secure_filename (s : String) : String :=
  let replaced := s.toList.map (fun c => if c = '/' then ' ' else c)
  let words := (List.splitOnP (fun c => c = ' ' ∨ c = '\t' ∨ c = '\n') replaced).filter
    (fun w => ¬w.isEmpty)
  let joined := String.mk (List.intercalate ['_'] words)
  let kept := joined.toList.filter
    (fun c => (c.isAlphanum ∧ c.toNat < 128) ∨ c = '_' ∨ c = '.' ∨ c = '-')
  let stripped := ((kept.dropWhile (fun c => c = '.' ∨ c = '_')).reverse.dropWhile
    (fun c => c = '.' ∨ c = '_')).reverse
  String.mk stripped

example : secure_filename "evil.exe" = "evil.exe" := by rfl
example : secure_filename "photo.png" = "photo.png" := by rfl
example : secure_filename "../etc/passwd x.txt" = "etc_passwd_x.txt" := by rfl

/-- The parts of an inbound multipart request the handlers inspect:
whether the form has a `file` field, and that file part's filename. -/
structure ApiRequest where
  hasFile : Bool
  filename : String

/-- The response of the HTML `/upload` route: either a redirect to the
index page with a flashed message, or the rendered success page. -/
inductive PageResponse where
  | redirectWithFlash (msg : String) : PageResponse
  | page (direct_link file_name : String) (file_id download_page : Json) : PageResponse
deriving Repr

/-- `upload_file` from `app.py`, the HTML `/upload` route: missing or
empty file flashes `No file selected`; a disallowed extension flashes the
allow-list; otherwise the file is relayed via `upload_to_gofile` and the
result rendered.  Also returns the outbound HTTP calls performed. -/
def upload_file (req : ApiRequest) (env : ProviderEnv) : PageResponse × List NetCall :=
  if req.hasFile = false then
    (.redirectWithFlash "No file selected", [])
  else if req.filename = "" then
    (.redirectWithFlash "No file selected", [])
  else if allowed_file req.filename = false then
    (.redirectWithFlash ("File type not allowed. Allowed types: "
      ++ String.intercalate ", " ALLOWED_EXTENSIONS), [])
  else
    let filename := secure_filename req.filename
    let rc := upload_to_gofile env filename
    let result := rc.1
    match result.item "success" with
    | .ok v =>
      if v.truthy then
        (match result.item "direct_link", result.item "file_name",
               result.item "file_id", result.item "download_page" with
         | .ok (.str dl), .ok (.str fn), .ok fid, .ok dp => (.page dl fn fid dp, rc.2)
         | _, _, _, _ => (.redirectWithFlash "Error processing upload", rc.2))
      else
        (match result.getD "error" (.str "Unknown error") with
         | .ok e => (.redirectWithFlash ("Upload failed: " ++ pyStr e), rc.2)
         | .error e => (.redirectWithFlash ("Error processing upload: " ++ e), rc.2))
    | .error e => (.redirectWithFlash ("Error processing upload: " ++ e), rc.2)

/-- `api_upload` from `app.py`, the `/api/upload` route: returns the HTTP
status code and JSON body, together with the outbound HTTP calls
performed.  Note the route performs no extension check before relaying. -/
def api_upload (req : ApiRequest) (env : ProviderEnv) : (Nat × Json) × List NetCall :=
  if req.hasFile = false then
    ((400, failureJson "No file provided"), [])
  else if req.filename = "" then
    ((400, failureJson "Empty filename"), [])
  else
    let filename := secure_filename req.filename
    let rc := upload_to_gofile env filename
    let result := rc.1
    match result.item "success" with
    | .ok v => if v.truthy then ((200, result), rc.2) else ((500, result), rc.2)
    | .error e => ((500, failureJson e), rc.2)

/-- `app.config['MAX_CONTENT_LENGTH'] = 100 * 1024 * 1024` from `app.py`. -/
def MAX_CONTENT_LENGTH : Nat := 100 * 1024 * 1024

/-- `too_large` from `app.py`, the registered 413 error handler: the HTTP
status and exact JSON body it returns. -/
def too_large : Nat × Json :=
  (413, failureJson "File too large (max 100MB)")

/-- Modelled from the spec: Flask's enforcement of `MAX_CONTENT_LENGTH`
(framework code, not in this repository's sources).  A request whose body
exceeds the configured limit is rejected with HTTP 413 — routed to the
registered 413 handler — before the request reaches the route, so no file
processing and no outbound call happens; otherwise the route runs. -/
def serve_api_upload (bodySize : Nat) (req : ApiRequest) (env : ProviderEnv) :
    (Nat × Json) × List NetCall :=
  if bodySize > MAX_CONTENT_LENGTH then (too_large, []) else api_upload req env

/-- The URL of the upload POST issued for a given provider environment. -/
def uploadUrl (env : ProviderEnv) : String :=
  "https://" ++ pyStr (get_gofile_server env.discovery) ++ ".gofile.io/uploadFile"

lemma upload_to_gofileE_snd (env : ProviderEnv) (fn : String) :
    (upload_to_gofileE env fn).2 = [NetCall.getServers, NetCall.postUpload (uploadUrl env)] := by
  obtain ⟨disc, up⟩ := env
  unfold upload_to_gofileE uploadUrl
  cases up <;> rfl

lemma upload_to_gofile_snd (env : ProviderEnv) (fn : String) :
    (upload_to_gofile env fn).2 = [NetCall.getServers, NetCall.postUpload (uploadUrl env)] := by
  unfold upload_to_gofile
  rcases h : upload_to_gofileE env fn with ⟨e | o, calls⟩
  · have := upload_to_gofileE_snd env fn
    rw [h] at this
    simpa using this
  · have := upload_to_gofileE_snd env fn
    rw [h] at this
    cases o <;> simpa using this

lemma upload_to_gofileE_some_shape (env : ProviderEnv) (fn : String) (d : Json)
    (calls : List NetCall) (h : upload_to_gofileE env fn = (Except.ok (some d), calls)) :
    (∃ dl fid sz dp, d = Json.obj
      [("success", .bool true), ("direct_link", .str dl), ("file_id", fid),
       ("file_name", .str fn), ("size", sz), ("download_page", dp)])
    ∨ (∃ code : Nat, d = failureJson ("Upload failed with status " ++ toString code)) := by
  obtain ⟨disc, up⟩ := env
  simp only [upload_to_gofileE] at h
  split at h
  · simp at h
  · rw [Prod.mk.injEq] at h
    obtain ⟨h1, -⟩ := h
    split at h1
    · split at h1
      · simp at h1
      · split at h1
        · simp at h1
        · split at h1
          · split at h1
            · simp at h1
            · split at h1
              · simp at h1
              · split at h1
                · simp at h1
                · split at h1
                  · simp at h1
                  · left
                    rw [Except.ok.injEq, Option.some.injEq] at h1
                    exact ⟨_, _, _, _, h1.symm⟩
          · simp at h1
    · right
      rw [Except.ok.injEq, Option.some.injEq] at h1
      exact ⟨_, h1.symm⟩

lemma failureJson_success (msg : String) :
    (failureJson msg).item "success" = Except.ok (Json.bool false) := by
  simp [failureJson, Json.item, List.lookup]

lemma failureJson_error (msg : String) :
    (failureJson msg).item "error" = Except.ok (Json.str msg) := by
  simp [failureJson, Json.item, List.lookup]

lemma upload_result_shape (env : ProviderEnv) (fn : String) :
    ∃ b : Bool, (upload_to_gofile env fn).1.item "success" = Except.ok (Json.bool b) ∧
      (b = false → ∃ msg,
        (upload_to_gofile env fn).1.item "error" = Except.ok (Json.str msg)) := by
  unfold upload_to_gofile
  rcases h : upload_to_gofileE env fn with ⟨res, calls⟩
  rcases res with e | o
  · exact ⟨false, by simp [failureJson_success], fun _ => ⟨e, by simp [failureJson_error]⟩⟩
  · rcases o with _ | d
    · exact ⟨false, by simp [failureJson_success],
        fun _ => ⟨"Unknown upload error", by simp [failureJson_error]⟩⟩
    · rcases upload_to_gofileE_some_shape _ fn d calls h with ⟨dl, fid, sz, dp, hd⟩ | ⟨code, hd⟩
      · subst hd
        exact ⟨true, by simp [Json.item, List.lookup], by intro hf; cases hf⟩
      · subst hd
        exact ⟨false, by simp [failureJson_success],
          fun _ => ⟨"Upload failed with status " ++ toString code, by simp [failureJson_error]⟩⟩

/-- A well-formed discovery response naming server `store3`. -/
def discStore3 : HttpOutcome :=
  .ok 200 (.ok (Json.obj [("status", .str "ok"),
    ("data", .obj [("servers", .arr [.obj [("name", .str "store3")]])])]))

/-- A well-formed upload response carrying fileId `abc123`, size 42 and a
download page, as in the spec's example. -/
def uploadOk : HttpOutcome :=
  .ok 200 (.ok (Json.obj [("status", .str "ok"),
    ("data", .obj [("fileId", .str "abc123"), ("size", .num 42),
      ("downloadPage", .str "https://gofile.io/d/abc123")])]))

/-- Provider environment: discovery yields `store3`, upload succeeds. -/
def envStore3 : ProviderEnv := ⟨discStore3, uploadOk⟩

example : get_gofile_server discStore3 = .str "store3" := by rfl
example : (upload_to_gofile envStore3 "photo.png").1.item "success"
    = Except.ok (Json.bool true) := by rfl

/-- Claim C5 (amended): every filename whose last dot-separated extension
token, lowercased, is in the allow-list passes validation; matching is
case-insensitive and inspects only the last token, so `Report.PDF` passes
and `archive.tar.zip` passes on `zip`; but `archive.tar.gz` does not
pass, because `gz` is not in the allow-list. -/
theorem C5_allowed_extensions_amended :
    (∀ s : String, '.' ∈ s.toList → lowerStr (extOf s) ∈ ALLOWED_EXTENSIONS →
      allowed_file s = true)
    ∧ allowed_file "Report.PDF" = true
    ∧ allowed_file "archive.tar.zip" = true
    ∧ allowed_file "archive.tar.gz" = false := by
  refine ⟨fun s h1 h2 => ?_, by decide, by decide, by decide⟩
  simp only [allowed_file, Bool.and_eq_true, decide_eq_true_eq]
  exact ⟨h1, h2⟩

/-- Claim C5, counterexample to the claim as stated: its example
`archive.tar.gz` does not pass validation — the last extension token is
`gz`, which is outside the allow-list. -/
theorem C5_counterexample :
    allowed_file "archive.tar.gz" = false ∧
    lowerStr (extOf "archive.tar.gz") = "gz" ∧
    "gz" ∉ ALLOWED_EXTENSIONS := by decide

/-- Witness for C5: the universal part applied to `notes.txt`. -/
theorem C5_witness :
    ('.' ∈ "notes.txt".toList) ∧ (lowerStr (extOf "notes.txt") ∈ ALLOWED_EXTENSIONS)
      ∧ allowed_file "notes.txt" = true :=
  ⟨by decide, by decide,
   C5_allowed_extensions_amended.1 "notes.txt" (by decide) (by decide)⟩

/-- Claim C1, counterexample to the claim as stated: `evil.exe` has a
disallowed extension, yet the `/api/upload` entry point relays it — the
outbound calls happen and the response is a 200 success, not the
validation failure. -/
theorem C1_counterexample :
    allowed_file "evil.exe" = false ∧
    (api_upload ⟨true, "evil.exe"⟩ envStore3).2 ≠ ([] : List NetCall) ∧
    (api_upload ⟨true, "evil.exe"⟩ envStore3).1.1 = 200 := by
  refine ⟨by decide, ?_, by rfl⟩
  decide

/-- Claim C1 (amended): on the HTML `/upload` route, every present,
nonempty filename with no dot or with a disallowed extension is rejected
with the flash message listing the allowed types, and no outbound HTTP
call is made; the `/api/upload` route, however, performs no extension
validation: for every present, nonempty filename it issues the server
discovery GET and the upload POST regardless of the extension. -/
theorem C1_amended_validation_entry_points :
    (∀ (req : ApiRequest) (env : ProviderEnv),
      req.hasFile = true → req.filename ≠ "" → allowed_file req.filename = false →
      upload_file req env =
        (.redirectWithFlash ("File type not allowed. Allowed types: "
          ++ String.intercalate ", " ALLOWED_EXTENSIONS), []))
    ∧ (∀ (req : ApiRequest) (env : ProviderEnv),
      req.hasFile = true → req.filename ≠ "" →
      (api_upload req env).2 =
        [NetCall.getServers, NetCall.postUpload (uploadUrl env)]) := by
  constructor
  · intro req env h1 h2 h3
    simp [upload_file, h1, h2, h3]
  · intro req env h1 h2
    obtain ⟨b, hb, -⟩ := upload_result_shape env (secure_filename req.filename)
    simp only [api_upload, h1, h2, Bool.true_eq_false, if_false, hb]
    cases b <;> simp [Json.truthy, upload_to_gofile_snd]

/-- Witness for C1: both conjuncts applied to concrete requests. -/
theorem C1_witness :
    upload_file ⟨true, "evil.exe"⟩ envStore3 =
      (.redirectWithFlash ("File type not allowed. Allowed types: "
        ++ String.intercalate ", " ALLOWED_EXTENSIONS), []) ∧
    (api_upload ⟨true, "data.bin"⟩ envStore3).2 =
      [NetCall.getServers, NetCall.postUpload (uploadUrl envStore3)] :=
  ⟨C1_amended_validation_entry_points.1 ⟨true, "evil.exe"⟩ envStore3 rfl
      (by decide) (by decide),
   C1_amended_validation_entry_points.2 ⟨true, "data.bin"⟩ envStore3 rfl (by decide)⟩

/-- Claim C2: for every successful provider response, the success
result's `direct_link` is `https://{server}.gofile.io/download/{fileId}/{filename}`
built from the selected server name, the provider-returned fileId and the
uploaded filename; in particular, for server `store3`, fileId `abc123`
and filename `photo.png` it is
`https://store3.gofile.io/download/abc123/photo.png`. -/
theorem C2_direct_link_format :
    (∀ (disc : HttpOutcome) (fid : String) (sz dp : Json) (fn : String)
        (extra extraTop : List (String × Json)),
      ((upload_to_gofile
        ⟨disc, .ok 200 (.ok (Json.obj (("status", .str "ok") ::
          ("data", Json.obj (("fileId", .str fid) :: ("size", sz) ::
            ("downloadPage", dp) :: extra)) :: extraTop)))⟩ fn).1).item "direct_link"
        = Except.ok (.str ("https://" ++ pyStr (get_gofile_server disc)
            ++ ".gofile.io/download/" ++ fid ++ "/" ++ fn)))
    ∧ ((upload_to_gofile envStore3 "photo.png").1).item "direct_link"
        = Except.ok (.str "https://store3.gofile.io/download/abc123/photo.png") := by
  refine ⟨fun disc fid sz dp fn extra extraTop => ?_, by rfl⟩
  simp [upload_to_gofile, upload_to_gofileE, Json.item, Json.getD, Json.isStr,
    List.lookup, pyStr]

/-- Claim C3: server selection never fails: a network exception, a
non-200 status, malformed JSON, a status field other than `ok`, an empty
server list, or missing fields (`status` missing, or the first server
lacking `name`) all yield the fixed default `store1`, and no exception
propagates (the function is total); on a 200 response with status `ok`
and a non-empty server list it returns the first listed server's name. -/
theorem C3_select_server :
    (∀ e, get_gofile_server (.exn e) = .str "store1")
    ∧ (∀ (code : Nat) (body : Except String Json), code ≠ 200 →
        get_gofile_server (.ok code body) = .str "store1")
    ∧ (∀ e, get_gofile_server (.ok 200 (.error e)) = .str "store1")
    ∧ (∀ (data v : Json), data.item "status" = .ok v → v.isStr "ok" = false →
        get_gofile_server (.ok 200 (.ok data)) = .str "store1")
    ∧ (∀ (data : Json) (e : String), data.item "status" = .error e →
        get_gofile_server (.ok 200 (.ok data)) = .str "store1")
    ∧ (∀ extra, get_gofile_server (.ok 200 (.ok (Json.obj (("status", .str "ok") ::
        ("data", Json.obj [("servers", Json.arr [])]) :: extra)))) = .str "store1")
    ∧ (∀ fs extra, get_gofile_server (.ok 200 (.ok (Json.obj (("status", .str "ok") ::
        ("data", Json.obj [("servers", Json.arr (Json.obj [] :: fs))]) :: extra))))
        = .str "store1")
    ∧ (∀ (name : Json) (rest : List Json) (more extra extraTop : List (String × Json)),
        get_gofile_server (.ok 200 (.ok (Json.obj (("status", .str "ok") ::
          ("data", Json.obj (("servers",
            Json.arr (Json.obj (("name", name) :: more) :: rest)) :: extra)) :: extraTop))))
          = name) := by
  refine ⟨fun e => rfl, fun code body hc => ?_, fun e => rfl,
    fun data v hv hok => ?_, fun data e he => ?_, fun extra => ?_,
    fun fs extra => ?_, fun name rest more extra extraTop => ?_⟩
  · simp [get_gofile_server, get_gofile_serverE, hc]
  · simp [get_gofile_server, get_gofile_serverE, hv, hok]
  · simp [get_gofile_server, get_gofile_serverE, he]
  · simp [get_gofile_server, get_gofile_serverE, Json.item, Json.isStr,
      Json.truthy, List.lookup]
  · simp [get_gofile_server, get_gofile_serverE, Json.item, Json.isStr,
      Json.truthy, Json.index, List.lookup]
  · simp [get_gofile_server, get_gofile_serverE, Json.item, Json.isStr,
      Json.truthy, Json.index, List.lookup]

/-- Witness for C3: the hypothesis-bearing conjuncts applied to a 503
response and to a 200 response whose status field is `error`. -/
theorem C3_witness :
    ((503 : Nat) ≠ 200)
    ∧ get_gofile_server (.ok 503 (.ok Json.null)) = .str "store1"
    ∧ (Json.obj [("status", Json.str "error")]).item "status"
        = Except.ok (Json.str "error")
    ∧ (Json.str "error").isStr "ok" = false
    ∧ get_gofile_server (.ok 200 (.ok (Json.obj [("status", Json.str "error")])))
        = .str "store1"
    ∧ (Json.obj []).item "status" = Except.error "KeyError: status"
    ∧ get_gofile_server (.ok 200 (.ok (Json.obj []))) = .str "store1" :=
  ⟨by decide, C3_select_server.2.1 503 (.ok Json.null) (by decide),
   by rfl, by rfl,
   C3_select_server.2.2.2.1 (Json.obj [("status", Json.str "error")])
     (Json.str "error") rfl rfl,
   by rfl,
   C3_select_server.2.2.2.2.1 (Json.obj []) "KeyError: status" rfl⟩

/-- A provider upload response that also carries its own `fileName`,
different from the uploaded filename. -/
def uploadOkNamed : HttpOutcome :=
  .ok 200 (.ok (Json.obj [("status", .str "ok"),
    ("data", .obj [("fileId", .str "abc123"), ("fileName", .str "renamed.bin"),
      ("size", .num 42), ("downloadPage", .str "https://gofile.io/d/abc123")])]))

/-- Claim C4, counterexample to the claim as stated: when the provider's
response itself carries a `fileName` (here `renamed.bin`) different from
the uploaded filename, the success result's `file_name` is the uploaded
filename `photo.png` — not what the provider returned. -/
theorem C4_counterexample :
    ((upload_to_gofile ⟨discStore3, uploadOkNamed⟩ "photo.png").1).item "file_name"
      = Except.ok (.str "photo.png")
    ∧ (Json.obj [("fileId", .str "abc123"), ("fileName", .str "renamed.bin"),
        ("size", .num 42), ("downloadPage", .str "https://gofile.io/d/abc123")]).item
        "fileName" = Except.ok (.str "renamed.bin")
    ∧ "photo.png" ≠ "renamed.bin" := by
  refine ⟨by rfl, by rfl, by decide⟩

/-- Claim C4 (amended): a success result's `file_id`, `size` and
`download_page` are exactly the provider's `fileId`, `size` and
`downloadPage` values, with no coercion or loss, `size` defaulting to 0
when the provider response omits it; the `file_name` field is the
uploaded filename passed to the relay, not a provider-returned value. -/
theorem C4_round_trip_amended :
    (∀ (disc : HttpOutcome) (fid sz dp : Json) (fn : String)
        (extra extraTop : List (String × Json)),
      ((upload_to_gofile ⟨disc, .ok 200 (.ok (Json.obj (("status", .str "ok") ::
        ("data", Json.obj (("fileId", fid) :: ("size", sz) ::
          ("downloadPage", dp) :: extra)) :: extraTop)))⟩ fn).1).item "file_id"
        = Except.ok fid
      ∧ ((upload_to_gofile ⟨disc, .ok 200 (.ok (Json.obj (("status", .str "ok") ::
        ("data", Json.obj (("fileId", fid) :: ("size", sz) ::
          ("downloadPage", dp) :: extra)) :: extraTop)))⟩ fn).1).item "size"
        = Except.ok sz
      ∧ ((upload_to_gofile ⟨disc, .ok 200 (.ok (Json.obj (("status", .str "ok") ::
        ("data", Json.obj (("fileId", fid) :: ("size", sz) ::
          ("downloadPage", dp) :: extra)) :: extraTop)))⟩ fn).1).item "download_page"
        = Except.ok dp
      ∧ ((upload_to_gofile ⟨disc, .ok 200 (.ok (Json.obj (("status", .str "ok") ::
        ("data", Json.obj (("fileId", fid) :: ("size", sz) ::
          ("downloadPage", dp) :: extra)) :: extraTop)))⟩ fn).1).item "file_name"
        = Except.ok (.str fn))
    ∧ (∀ (disc : HttpOutcome) (fid dp : Json) (fn : String),
      ((upload_to_gofile ⟨disc, .ok 200 (.ok (Json.obj [("status", .str "ok"),
        ("data", Json.obj [("fileId", fid), ("downloadPage", dp)])]))⟩ fn).1).item "size"
        = Except.ok (Json.num 0)) := by
  constructor
  · intro disc fid sz dp fn extra extraTop
    refine ⟨?_, ?_, ?_, ?_⟩ <;>
      simp [upload_to_gofile, upload_to_gofileE, Json.item, Json.getD,
        Json.isStr, List.lookup]
  · intro disc fid dp fn
    simp [upload_to_gofile, upload_to_gofileE, Json.item, Json.getD,
      Json.isStr, List.lookup]

/-- Is a network call an upload POST? -/
def NetCall.isPost : NetCall → Bool
  | .postUpload _ => true
  | .getServers => false

/-- Claim C6: every upload POST response with a non-200 status yields the
Failure `Upload failed with status {code}`, whose message contains the
status code; an HTTP 503 response yields a message containing `503`. -/
theorem C6_non200_failure :
    (∀ (disc : HttpOutcome) (code : Nat) (body : Except String Json) (fn : String),
      code ≠ 200 →
      (upload_to_gofile ⟨disc, .ok code body⟩ fn).1
        = failureJson ("Upload failed with status " ++ toString code))
    ∧ (upload_to_gofile ⟨discStore3, .ok 503 (.ok Json.null)⟩ "photo.png").1
        = failureJson "Upload failed with status 503"
    ∧ (∃ p q : String, "Upload failed with status 503" = p ++ "503" ++ q) := by
  refine ⟨fun disc code body fn hc => ?_, by rfl,
    ⟨"Upload failed with status ", "", by rfl⟩⟩
  simp [upload_to_gofile, upload_to_gofileE, hc]

/-- Witness for C6: the non-200 conjunct applied to a 503 response. -/
theorem C6_witness :
    ((503 : Nat) ≠ 200)
    ∧ (upload_to_gofile ⟨discStore3, .ok 503 (.ok Json.null)⟩ "a.txt").1
        = failureJson "Upload failed with status 503" :=
  ⟨by decide, C6_non200_failure.1 discStore3 503 (.ok Json.null) "a.txt" (by decide)⟩

/-- Claim C7: an upload POST that raises, or that returns HTTP 200 with
malformed JSON, or HTTP 200 with a JSON body whose `status` is missing or
not `ok`, always yields a Failure dictionary (`success` is `False`; the
relay never raises and never returns a success), and no retry happens:
exactly one upload POST is ever issued per call. -/
theorem C7_transport_protocol_failure :
    (∀ (disc : HttpOutcome) (e fn : String),
      (upload_to_gofile ⟨disc, .exn e⟩ fn).1 = failureJson e)
    ∧ (∀ (disc : HttpOutcome) (e fn : String),
      (upload_to_gofile ⟨disc, .ok 200 (.error e)⟩ fn).1 = failureJson e)
    ∧ (∀ (disc : HttpOutcome) (data v : Json) (fn : String),
      data.item "status" = .ok v → v.isStr "ok" = false →
      (upload_to_gofile ⟨disc, .ok 200 (.ok data)⟩ fn).1
        = failureJson "Unknown upload error")
    ∧ (∀ (disc : HttpOutcome) (data : Json) (e fn : String),
      data.item "status" = .error e →
      (upload_to_gofile ⟨disc, .ok 200 (.ok data)⟩ fn).1 = failureJson e)
    ∧ (∀ msg, (failureJson msg).item "success" = Except.ok (Json.bool false))
    ∧ (∀ (env : ProviderEnv) (fn : String),
      ((upload_to_gofile env fn).2.filter NetCall.isPost).length = 1) := by
  refine ⟨fun disc e fn => rfl, fun disc e fn => rfl,
    fun disc data v fn hst hok => ?_, fun disc data e fn hst => ?_,
    fun msg => failureJson_success msg, fun env fn => ?_⟩
  · simp [upload_to_gofile, upload_to_gofileE, hst, hok]
  · simp [upload_to_gofile, upload_to_gofileE, hst]
  · simp [upload_to_gofile_snd, NetCall.isPost]

/-- Witness for C7: the status-not-ok and status-missing conjuncts at
concrete responses. -/
theorem C7_witness :
    (Json.obj [("status", Json.str "error")]).item "status"
      = Except.ok (Json.str "error")
    ∧ (Json.str "error").isStr "ok" = false
    ∧ (upload_to_gofile ⟨discStore3,
        .ok 200 (.ok (Json.obj [("status", Json.str "error")]))⟩ "a.txt").1
        = failureJson "Unknown upload error"
    ∧ (Json.obj []).item "status" = Except.error "KeyError: status"
    ∧ (upload_to_gofile ⟨discStore3, .ok 200 (.ok (Json.obj []))⟩ "a.txt").1
        = failureJson "KeyError: status" :=
  ⟨by rfl, by rfl,
   C7_transport_protocol_failure.2.2.1 discStore3
     (Json.obj [("status", Json.str "error")]) (Json.str "error") "a.txt" rfl rfl,
   by rfl,
   C7_transport_protocol_failure.2.2.2.1 discStore3 (Json.obj [])
     "KeyError: status" "a.txt" rfl⟩

/-- Claim C8 (the size cap's enforcement point is framework behaviour
modelled from the spec; the 413 handler and the configured limit are from
the source): every request whose body exceeds 100 MiB is answered with
HTTP 413 and the exact JSON body
`{"success": false, "error": "File too large (max 100MB)"}`, before the
file enters the validation/upload path — no outbound call is made. -/
theorem C8_payload_too_large :
    ∀ (bodySize : Nat) (req : ApiRequest) (env : ProviderEnv),
      bodySize > 100 * 1024 * 1024 →
      serve_api_upload bodySize req env =
        ((413, Json.obj [("success", .bool false),
          ("error", .str "File too large (max 100MB)")]), []) := by
  intro bodySize req env h
  simp [serve_api_upload, MAX_CONTENT_LENGTH, too_large, failureJson, h]

/-- Witness for C8: a body one byte over the cap. -/
theorem C8_witness :
    (100 * 1024 * 1024 + 1 > 100 * 1024 * 1024)
    ∧ serve_api_upload (100 * 1024 * 1024 + 1) ⟨true, "photo.png"⟩ envStore3 =
        ((413, Json.obj [("success", .bool false),
          ("error", .str "File too large (max 100MB)")]), []) :=
  ⟨by decide,
   C8_payload_too_large (100 * 1024 * 1024 + 1) ⟨true, "photo.png"⟩ envStore3
     (by decide)⟩

/-- Claim C9: `/api/upload` returns HTTP 400 with a JSON failure when the
`file` field is missing or the filename is empty; when the relay result
is a failure it is returned as the JSON body with HTTP 500; when the
relay result is a success it is returned as the JSON body with HTTP 200. -/
theorem C9_api_upload_statuses :
    (∀ (fn : String) (env : ProviderEnv),
      (api_upload ⟨false, fn⟩ env).1 = (400, failureJson "No file provided"))
    ∧ (∀ env : ProviderEnv,
      (api_upload ⟨true, ""⟩ env).1 = (400, failureJson "Empty filename"))
    ∧ (∀ (req : ApiRequest) (env : ProviderEnv),
      req.hasFile = true → req.filename ≠ "" →
      (upload_to_gofile env (secure_filename req.filename)).1.item "success"
        = Except.ok (Json.bool true) →
      (api_upload req env).1
        = (200, (upload_to_gofile env (secure_filename req.filename)).1))
    ∧ (∀ (req : ApiRequest) (env : ProviderEnv),
      req.hasFile = true → req.filename ≠ "" →
      (upload_to_gofile env (secure_filename req.filename)).1.item "success"
        = Except.ok (Json.bool false) →
      (api_upload req env).1
        = (500, (upload_to_gofile env (secure_filename req.filename)).1)) := by
  refine ⟨fun fn env => rfl, fun env => rfl,
    fun req env h1 h2 hs => ?_, fun req env h1 h2 hs => ?_⟩
  · simp [api_upload, h1, h2, hs, Json.truthy]
  · simp [api_upload, h1, h2, hs, Json.truthy]

/-- A provider environment whose upload POST raises a network error. -/
def envNetFail : ProviderEnv := ⟨discStore3, .exn "Connection refused"⟩

/-- Witness for C9: the 200 and 500 conjuncts at concrete requests. -/
theorem C9_witness :
    ((⟨true, "photo.png"⟩ : ApiRequest).hasFile = true)
    ∧ ((⟨true, "photo.png"⟩ : ApiRequest).filename ≠ "")
    ∧ (upload_to_gofile envStore3 (secure_filename "photo.png")).1.item "success"
        = Except.ok (Json.bool true)
    ∧ (api_upload ⟨true, "photo.png"⟩ envStore3).1
        = (200, (upload_to_gofile envStore3 (secure_filename "photo.png")).1)
    ∧ (upload_to_gofile envNetFail (secure_filename "photo.png")).1.item "success"
        = Except.ok (Json.bool false)
    ∧ (api_upload ⟨true, "photo.png"⟩ envNetFail).1
        = (500, (upload_to_gofile envNetFail (secure_filename "photo.png")).1) :=
  ⟨rfl, by decide, by rfl,
   C9_api_upload_statuses.2.2.1 ⟨true, "photo.png"⟩ envStore3 rfl (by decide) (by rfl),
   by rfl,
   C9_api_upload_statuses.2.2.2 ⟨true, "photo.png"⟩ envNetFail rfl (by decide) (by rfl)⟩

/-- Claim C10: `upload_to_gofile` is total over its inputs and the
provider's behaviour — it is a total function of the embedded provider
environment, so no exception propagates — and always returns a dictionary
whose `success` key holds a boolean, with an `error` message present
whenever `success` is false, including the fall-through
`Unknown upload error` when HTTP 200 carries a JSON status other than
`ok`. -/
theorem C10_total_result_shape :
    (∀ (env : ProviderEnv) (fn : String), ∃ b : Bool,
      (upload_to_gofile env fn).1.item "success" = Except.ok (Json.bool b) ∧
      (b = false → ∃ msg,
        (upload_to_gofile env fn).1.item "error" = Except.ok (Json.str msg)))
    ∧ (∀ (disc : HttpOutcome) (data v : Json) (fn : String),
      data.item "status" = .ok v → v.isStr "ok" = false →
      (upload_to_gofile ⟨disc, .ok 200 (.ok data)⟩ fn).1.item "error"
        = Except.ok (.str "Unknown upload error")) := by
  refine ⟨fun env fn => upload_result_shape env fn,
    fun disc data v fn hst hok => ?_⟩
  have h : (upload_to_gofile ⟨disc, .ok 200 (.ok data)⟩ fn).1
      = failureJson "Unknown upload error" := by
    simp [upload_to_gofile, upload_to_gofileE, hst, hok]
  rw [h, failureJson_error]

/-- Witness for C10: both conjuncts at concrete provider responses. -/
theorem C10_witness :
    (∃ b : Bool,
      (upload_to_gofile envNetFail "a.txt").1.item "success"
        = Except.ok (Json.bool b) ∧
      (b = false → ∃ msg,
        (upload_to_gofile envNetFail "a.txt").1.item "error"
          = Except.ok (Json.str msg)))
    ∧ (Json.obj [("status", Json.str "partial")]).item "status"
        = Except.ok (Json.str "partial")
    ∧ (Json.str "partial").isStr "ok" = false
    ∧ (upload_to_gofile ⟨discStore3,
        .ok 200 (.ok (Json.obj [("status", Json.str "partial")]))⟩ "a.txt").1.item
        "error" = Except.ok (.str "Unknown upload error") :=
  ⟨C10_total_result_shape.1 envNetFail "a.txt", by rfl, by rfl,
   C10_total_result_shape.2 discStore3 (Json.obj [("status", Json.str "partial")])
     (Json.str "partial") "a.txt" rfl rfl⟩
